import Mathlib

/-!
# Verification of the real-time audio-analysis engine

Shallow embedding of `src/backend/realtime_analysis.py` (class `RealTimeAnalyzer`)
and of the outbound-event sanitizer `ConnectionManager._make_json_safe` of
`src/backend/main.py`, together with theorems settling the specification claims.

Modelling conventions:
* audio samples and all numeric quantities are rationals (`ℚ`); the Python code
  uses binary floating point, but every comparison relevant to the claims is on
  exactly representable values or is threshold-style and carried over verbatim;
* raw bytes are `Fin 256`;
* wall-clock timestamps are opaque parameters (`ℚ` for arithmetic on durations,
  `String` for the ISO-format strings stored in records);
* the external collaborators (temporary-file write, speech-to-text, ML scorer)
  are inputs ("oracles") to the functions that call them, mirroring exactly how
  the source branches on their outcomes.
-/

namespace RealtimeAnalysis

/-- `constants from RealTimeAnalyzer.__init__`: sample rate in Hz. -/
def sample_rate : ℕ := 16000

/-- `self.max_buffer_size = 30.0` (maximum buffer duration in seconds). -/
def max_buffer_size : ℚ := 30

/-- `self.transcription_threshold = 3.0` (minimum audio length for transcription). -/
def transcription_threshold : ℚ := 3

/-- `self.silence_threshold = 0.01` (threshold for silence detection). -/
def silence_threshold : ℚ := 1/100

/-- Sum of squared samples, `np.sum(a ** 2)` over the embedded samples. -/
def sumSq (l : List ℚ) : ℚ := (l.map (fun x => x * x)).sum

/-- `np.mean(a ** 2)` for a nonempty list; the source only compares the value of
`np.mean` on an empty array (a NaN) with `>`/`<`, which is always false, and the
one place it can occur (`process_audio_chunk`, line 113) explicitly substitutes
`0`; we use `0` for the empty case. -/
def meanSq (l : List ℚ) : ℚ := if l.length = 0 then 0 else sumSq l / l.length

/-- Python slice `l[-n:]`: the `n` most recent elements (the whole list when
`l.length ≤ n`). -/
def lastN (n : ℕ) (l : List α) : List α := l.drop (l.length - n)

/-! ## `RealTimeAnalyzer._bytes_to_audio_array` (lines 425–469)

Decoding of a raw byte chunk into normalized samples. -/

/-- Signed 16-bit little-endian integer from two bytes (`np.frombuffer`,
`dtype=np.int16`). -/
def int16OfBytes (lo hi : Fin 256) : ℤ :=
  let u : ℕ := lo.val + 256 * hi.val
  if u < 32768 then (u : ℤ) else (u : ℤ) - 65536

/-- `np.frombuffer(audio_bytes, dtype=np.int16).astype(np.float32) / 32768.0`:
consecutive byte pairs decoded as int16 and divided by 32768. (Only applied to
even-length inputs; `np.frombuffer` raises on odd length, which the caller
models separately.) -/
def pcm16Decode : List (Fin 256) → List ℚ
  | lo :: hi :: rest => ((int16OfBytes lo hi : ℚ) / 32768) :: pcm16Decode rest
  | _ => []

/-- IEEE-754 binary32 value of a 32-bit word, as an exact rational.
`e = 255` encodes Inf/NaN, which has no rational value; it is mapped to `0`
here and is unreachable in every property proved in this file. -/
def float32OfWord (w : ℕ) : ℚ :=
  let s : ℕ := w / 2 ^ 31
  let e : ℕ := (w / 2 ^ 23) % 256
  let m : ℕ := w % 2 ^ 23
  let mag : ℚ :=
    if e = 0 then (m : ℚ) / 2 ^ 149
    else if e = 255 then 0
    else ((2 ^ 23 + m : ℕ) : ℚ) * (2 : ℚ) ^ ((e : ℤ) - 150)
  if s = 0 then mag else -mag

/-- `np.frombuffer(audio_bytes, dtype=np.float32)`: consecutive little-endian
4-byte groups decoded as binary32. (Only applied to inputs of length divisible
by 4; `np.frombuffer` raises otherwise, which the caller models separately.) -/
def float32Decode : List (Fin 256) → List ℚ
  | b0 :: b1 :: b2 :: b3 :: rest =>
      float32OfWord (b0.val + 256 * b1.val + 65536 * b2.val + 16777216 * b3.val)
        :: float32Decode rest
  | _ => []

/-- Largest absolute sample value, `np.max(np.abs(a))` (with `0` for the empty
array, where the source value is unreachable). -/
def maxAbs (l : List ℚ) : ℚ := l.foldr (fun x m => max |x| m) 0

/-- `RealTimeAnalyzer._bytes_to_audio_array`. Control flow of the source:
* fewer than 4 bytes: log and return the empty array (line 429–431);
* try int16 PCM decode (raises on odd length → the `except` path retries the
  bytes as float32, which itself raises unless the length is divisible by 4,
  in which case the second `except` returns the empty array);
* after a successful PCM decode: empty result returns empty (line 443–445,
  unreachable for length ≥ 4); if the maximum absolute value exceeds 10,
  reinterpret the same bytes as float32 (line 448–452, again raising — hence
  empty — unless the length is divisible by 4). -/
def bytes_to_audio_array (audio_bytes : List (Fin 256)) : List ℚ :=
  if audio_bytes.length < 4 then []
  else if audio_bytes.length % 2 = 0 then
    let a := pcm16Decode audio_bytes
    if a.length = 0 then []
    else if 10 < maxAbs a then
      (if audio_bytes.length % 4 = 0 then float32Decode audio_bytes else [])
    else a
  else
    (if audio_bytes.length % 4 = 0 then float32Decode audio_bytes else [])

/-! ## `RealTimeAnalyzer._manage_buffer` (lines 416–423) -/

/-- `RealTimeAnalyzer._manage_buffer`: when the buffer exceeds
`int(max_buffer_size * sample_rate)` samples, keep only the most recent
`int(max_buffer_length * 0.7)` samples. -/
def manage_buffer (buffer : List ℚ) : List ℚ :=
  let max_buffer_length : ℕ := ((max_buffer_size * (sample_rate : ℚ)).floor).toNat
  if max_buffer_length < buffer.length then
    let keep_length : ℕ := (((max_buffer_length : ℚ) * (7/10)).floor).toNat
    lastN keep_length buffer
  else buffer

/-! ## Live metrics (`self.live_metrics`) and trend updates -/

/-- One entry of `live_metrics['emotion_trend']`:
`{'emotion': ..., 'timestamp': datetime.now().isoformat()}`. -/
structure EmotionEntry where
  emotion : String
  timestamp : String
deriving DecidableEq, Repr

/-- The `self.live_metrics` dict. The source stores
`volume_level = round(100 * sqrt(ms), 2)` where `ms` is the mean of squared
samples; the square root of a rational is irrational in general, so the field
`volume_level_sq` stores `ms` itself (every comparison made by the source on
the RMS value is equivalent to a comparison on `ms`; the presentational
rounding is not modelled).  `is_speaking` is absent from the dict until the
first `_calculate_live_metrics` call, hence `Option Bool`; likewise
`last_update` is `None` until `__init__` is followed by a session start or a
metrics update. -/
structure LiveMetrics where
  volume_level_sq : ℚ
  speaking_pace : ℚ
  confidence_trend : List ℚ
  emotion_trend : List EmotionEntry
  pitch_variation : ℚ
  speaking_time : ℚ
  pause_count : ℕ
  is_speaking : Option Bool
  last_update : Option String
deriving DecidableEq, Repr

/-- The metrics dict built in `__init__` (lines 35–44): all zeros, empty trends,
`last_update = None`. -/
def initMetrics : LiveMetrics :=
  { volume_level_sq := 0, speaking_pace := 0, confidence_trend := [],
    emotion_trend := [], pitch_variation := 0, speaking_time := 0,
    pause_count := 0, is_speaking := none, last_update := none }

/-- The metrics dict assigned by `start_session` (lines 64–73): identical to the
`__init__` one except `last_update = datetime.now().isoformat()`. -/
def resetMetrics (now : String) : LiveMetrics :=
  { initMetrics with last_update := some now }

/-- The analysis dict returned by the ML collaborator
(`ml_voice_analyzer.analyze_transcript`), restricted to the keys
`_update_analysis_trends` and `_process_buffer_chunk` read:
`confidence_score` (read with `.get(..., 0)`, hence `Option`),
`emotion_analysis['dominant_emotion']`, `speaking_pace['words_per_minute']`,
and whether the key `'error'` is present (line 254 checks
`'error' not in analysis`). -/
structure Analysis where
  confidence_score : Option ℚ
  dominant_emotion : Option String
  words_per_minute : Option ℚ
  hasError : Bool
deriving DecidableEq, Repr

/-- The trimming step `if len(l) > 10: l = l[-10:]` applied after each trend
append (lines 392–393 and 405–406). -/
def trimTo10 (l : List α) : List α :=
  if 10 < l.length then lastN 10 l else l

/-- `RealTimeAnalyzer._update_analysis_trends` (lines 384–414): append the
confidence score (default 0), trim to the 10 most recent; if the analysis has a
dominant emotion, append an `{emotion, timestamp}` entry and trim likewise; if
it has a words-per-minute value, overwrite `speaking_pace`. -/
def update_analysis_trends (m : LiveMetrics) (analysis : Analysis) (now : String) :
    LiveMetrics :=
  let ct := trimTo10 (m.confidence_trend ++ [analysis.confidence_score.getD 0])
  let et :=
    match analysis.dominant_emotion with
    | some e => trimTo10 (m.emotion_trend ++ [{ emotion := e, timestamp := now }])
    | none => m.emotion_trend
  let pace :=
    match analysis.words_per_minute with
    | some wpm => wpm
    | none => m.speaking_pace
  { m with confidence_trend := ct, emotion_trend := et, speaking_pace := pace }

/-! ## `RealTimeAnalyzer._calculate_live_metrics` (lines 150–180) -/

/-- `is_speaking = volume_level > 0.01` where `volume_level` is the raw RMS
`sqrt(meanSq chunk)` before the ×100 scaling.  For nonnegative `ms`,
`sqrt ms > 1/100 ↔ ms > 1/10000`, so the comparison is embedded on the mean
square (see `isSpeaking_iff_rms` below for the proved equivalence). -/
def isSpeaking (chunk : List ℚ) : Bool := decide ((1:ℚ)/10000 < meanSq chunk)

/-- `RealTimeAnalyzer._calculate_live_metrics`.  `pv` is the pitch-variation
value `std(librosa.feature.zero_crossing_rate(chunk))`, an external numeric
computation irrelevant to every claim, passed in as an oracle.  For an empty
chunk the source either raises inside `librosa` (caught: metrics returned
unchanged) or propagates NaNs with `is_speaking = False`; in both cases
`speaking_time` is unchanged, and the model returns the metrics unchanged. -/
def calculate_live_metrics (m : LiveMetrics) (chunk : List ℚ) (pv : ℚ)
    (now : String) : LiveMetrics :=
  if chunk.length = 0 then m
  else
    let ms := meanSq chunk
    let sp := isSpeaking chunk
    let m' := { m with volume_level_sq := ms, pitch_variation := pv,
                       is_speaking := some sp, last_update := some now }
    if sp then
      { m' with speaking_time := m'.speaking_time + (chunk.length : ℚ) / sample_rate }
    else m'

/-! ## The heavy-analysis trigger in `process_audio_chunk` (lines 106–116) -/

/-- The gate of `process_audio_chunk`: with `buffer` the engine buffer *after*
appending the decoded chunk, `_process_buffer_chunk` is invoked iff
`len(buffer)/sample_rate > transcription_threshold` and the mean of squared
samples over the last 2 seconds (`buffer[-sample_rate*2:]`) exceeds
`silence_threshold` (with the energy taken as `0` for an empty slice, as in
line 113). -/
def triggerCondition (buffer : List ℚ) : Bool :=
  let buffer_duration : ℚ := (buffer.length : ℚ) / sample_rate
  if transcription_threshold < buffer_duration then
    let recent := lastN (sample_rate * 2) buffer
    let energy : ℚ := if 0 < recent.length then meanSq recent else 0
    decide (silence_threshold < energy)
  else false

/-! ## Session state and the heavy-analysis pass -/

/-- The analysis payload stored under `analysis_result['analysis']` by
`_process_buffer_chunk`:
* `scored a` — the dict returned by `ml_voice_analyzer.analyze_transcript`
  (line 251);
* `failed msg c` — `{'error': msg, 'confidence_score': c}` built at lines
  259–262 when the ML call raises;
* `listening msg aq c` — `{'message': msg, 'audio_quality': aq,
  'confidence_score': c}` built at lines 265–269 when there is no transcript. -/
inductive AnalysisPayload where
  | scored (a : Analysis)
  | failed (error : String) (confidence_score : ℚ)
  | listening (message : String) (audio_quality : String) (confidence_score : ℚ)
deriving DecidableEq, Repr

/-- The `analysis_result` dict appended to `session['analysis_results']`
(lines 230–237 plus the `analysis` key added later). -/
structure ChunkAnalysisResult where
  chunk_id : ℕ
  transcript : String
  timestamp : String
  duration : ℚ
  audio_energy : ℚ
  has_speech : Bool
  analysis : AnalysisPayload
deriving DecidableEq, Repr

/-- Per-session record `self.session_data[session_id]` (lines 54–61). -/
structure SessionData where
  user_id : ℤ
  start_time : ℚ
  total_chunks : ℕ
  total_audio_duration : ℚ
  accumulated_transcript : String
  analysis_results : List ChunkAnalysisResult
deriving DecidableEq, Repr

/-- Mutable attributes of the `RealTimeAnalyzer` instance. -/
structure EngineState where
  buffer : List ℚ
  transcript_buffer : String
  session_data : List (String × SessionData)
  is_processing : Bool
  live_metrics : LiveMetrics
deriving DecidableEq, Repr

/-- `self.session_data[session_id]` lookup (`KeyError`/`not in` modelled as
`none`). -/
def lookupSession (sessions : List (String × SessionData)) (sid : String) :
    Option SessionData :=
  (sessions.find? (fun p => p.1 == sid)).map (·.2)

/-- Dict assignment `self.session_data[sid] = d`: replace in place when the key
exists, append otherwise. -/
def insertSession (sessions : List (String × SessionData)) (sid : String)
    (d : SessionData) : List (String × SessionData) :=
  if (sessions.find? (fun p => p.1 == sid)).isSome then
    sessions.map (fun p => if p.1 == sid then (sid, d) else p)
  else sessions ++ [(sid, d)]

/-- `del self.session_data[sid]`. -/
def removeSession (sessions : List (String × SessionData)) (sid : String) :
    List (String × SessionData) :=
  sessions.filter (fun p => !(p.1 == sid))

/-- The engine right after `__init__` (lines 24–50). -/
def initState : EngineState :=
  { buffer := [], transcript_buffer := "", session_data := [],
    is_processing := false, live_metrics := initMetrics }

/-- `RealTimeAnalyzer.start_session` (lines 52–80): install a fresh session
record and reset `self.live_metrics`.  `now` is `datetime.now()` as seconds,
`nowIso` its ISO string.  The returned status payload carries no information
beyond the new state and is not modelled. -/
def start_session (st : EngineState) (sid : String) (uid : ℤ) (now : ℚ)
    (nowIso : String) : EngineState :=
  { st with
      session_data := insertSession st.session_data sid
        { user_id := uid, start_time := now, total_chunks := 0,
          total_audio_duration := 0, accumulated_transcript := "",
          analysis_results := [] },
      live_metrics := resetMetrics nowIso }

/-- Outcome of `ml_voice_analyzer.analyze_transcript` as seen by
`_process_buffer_chunk`: a returned dict (which may itself carry an `'error'`
key, see `Analysis.hasError`), or a raised exception with message `msg`. -/
inductive MLOutcome where
  | ok (a : Analysis)
  | raised (msg : String)
deriving DecidableEq, Repr

/-- External effects consumed by one heavy-analysis pass:
* `fileWriteOk` — the temporary-file write succeeded and the written file is at
  least 1000 bytes (lines 213–222);
* `transcript` — the result of `_transcribe_audio_chunk` (`None` when no speech
  was recognized);
* `ml` — the ML collaborator outcome (only consulted when the transcript is
  truthy);
* `nowIso` — `datetime.now().isoformat()`. -/
structure PassOracles where
  fileWriteOk : Bool
  transcript : Option String
  ml : MLOutcome
  nowIso : String

/-- Python truthiness of the transcript: `if chunk_transcript:` — `None` and
the empty string are both falsy. -/
def transcriptTruthy : Option String → Bool
  | none => false
  | some s => !(s = "")

/-- The tail of `_process_buffer_chunk` once a `ChunkAnalysisResult` has been
built (lines 271–278): append it to the session's history, trim the engine
buffer, clear the in-progress flag (the `finally` at lines 284–292), and return
the result. -/
def finishPass (st : EngineState) (sid : String) (session : SessionData)
    (r : ChunkAnalysisResult) : Option ChunkAnalysisResult × EngineState :=
  let session := { session with analysis_results := session.analysis_results ++ [r] }
  (some r,
   { st with
       session_data := insertSession st.session_data sid session,
       buffer := manage_buffer st.buffer,
       is_processing := false })

/-- `RealTimeAnalyzer._process_buffer_chunk` (lines 182–297).  The three
snapshot validations (empty buffer, duration below `transcription_threshold`,
whole-buffer energy below `silence_threshold`) `return None` *after*
`self.is_processing = True` but *before* the inner `try` whose `finally`
resets the flag — so on those paths the returned state still has
`is_processing = true` (line 189 vs. lines 194–208 vs. 284–292).  A failed or
undersized file write, and a `KeyError` on the session lookup, happen inside
the inner `try` and do reset the flag. -/
def process_buffer_chunk (st : EngineState) (sid : String) (or : PassOracles) :
    Option ChunkAnalysisResult × EngineState :=
  if st.is_processing then (none, st)
  else
    let st1 := { st with is_processing := true }
    let buffer_array := st1.buffer
    if buffer_array.length = 0 then (none, st1)
    else
      let duration : ℚ := (buffer_array.length : ℚ) / sample_rate
      if duration < transcription_threshold then (none, st1)
      else
        let energy := meanSq buffer_array
        if energy < silence_threshold then (none, st1)
        else if !or.fileWriteOk then (none, { st1 with is_processing := false })
        else
          match lookupSession st1.session_data sid with
          | none => (none, { st1 with is_processing := false })
          | some session =>
            let mkResult : AnalysisPayload → ChunkAnalysisResult := fun payload =>
              { chunk_id := session.total_chunks,
                transcript := or.transcript.getD "",
                timestamp := or.nowIso,
                duration := duration,
                audio_energy := energy,
                has_speech := decide (silence_threshold < energy),
                analysis := payload }
            if transcriptTruthy or.transcript then
              let t := or.transcript.getD ""
              let session :=
                { session with accumulated_transcript :=
                    session.accumulated_transcript ++ " " ++ t }
              match or.ml with
              | .raised msg =>
                  finishPass st1 sid session
                    (mkResult (.failed ("Analysis failed: " ++ msg) 0))
              | .ok a =>
                  let st2 :=
                    if !a.hasError then
                      { st1 with live_metrics :=
                          update_analysis_trends st1.live_metrics a or.nowIso }
                    else st1
                  finishPass st2 sid session (mkResult (.scored a))
            else
              let payload := AnalysisPayload.listening "Continuing to listen..."
                (if silence_threshold < energy then "detected" else "silent") 0
              finishPass st1 sid session (mkResult payload)

/-- `RealTimeAnalyzer.process_audio_chunk` (lines 82–148).  An unknown session
id raises `ValueError` *before* the `try` (line 89–90), modelled as the first
component `none`; otherwise the per-chunk pipeline runs: decode, append to the
engine buffer, bump the chunk counter, update live metrics, and — exactly when
`triggerCondition` holds on the extended buffer — invoke the heavy pass.  `pv`
is the pitch-variation oracle of `calculate_live_metrics`. -/
def process_audio_chunk (st : EngineState) (sid : String)
    (audio_data : List (Fin 256)) (pv : ℚ) (or : PassOracles) :
    Option (Option ChunkAnalysisResult) × EngineState :=
  match lookupSession st.session_data sid with
  | none => (none, st)
  | some session =>
    let chunk := bytes_to_audio_array audio_data
    let st := { st with buffer := st.buffer ++ chunk }
    let session' := { session with total_chunks := session.total_chunks + 1 }
    let st := { st with session_data := insertSession st.session_data sid session' }
    let st := { st with live_metrics :=
        calculate_live_metrics st.live_metrics chunk pv or.nowIso }
    if triggerCondition st.buffer then
      let (r, st') := process_buffer_chunk st sid or
      (some r, st')
    else (some none, st)

/-! ## `RealTimeAnalyzer.end_session` and `_summarize_emotions` -/

/-- Distinct keys of a list in first-occurrence order (iteration order of the
`emotion_counts` dict built at lines 580–582). -/
def firstKeys : List String → List String
  | [] => []
  | x :: t => x :: firstKeys (t.filter (fun y => ¬ y = x))
termination_by l => l.length
decreasing_by
  simp only [List.length_cons]
  exact Nat.lt_succ_of_le (List.length_filter_le _ _)

/-- Number of occurrences of `x` (the value of `emotion_counts[x]`). -/
def countOf (l : List String) (x : String) : ℕ := (l.filter (fun y => y = x)).length

/-- `max(emotion_counts, key=emotion_counts.get)`: the first key, in iteration
order, with the maximal count (Python's `max` keeps the earliest maximum). -/
def pickDominant (counts : String → ℕ) : List String → String → String
  | [], best => best
  | k :: t, best => pickDominant counts t (if counts best < counts k then k else best)

/-- `sum(1 for i in range(1, len(es)) if es[i] != es[i-1])`. -/
def adjacentChanges : List String → ℕ
  | a :: b :: t => (if a = b then 0 else 1) + adjacentChanges (b :: t)
  | _ => 0

/-- Return value of `_summarize_emotions` (lines 572–599).  In the
empty-trend case the source dict has only the `dominant_emotion` and
`emotion_changes` keys; the two extra fields are `[]`/`none` there. -/
structure EmotionSummary where
  dominant_emotion : String
  emotion_changes : ℕ
  emotion_distribution : List (String × ℕ)
  emotional_stability : Option String
deriving DecidableEq, Repr

/-- `RealTimeAnalyzer._summarize_emotions`. -/
def summarize_emotions (m : LiveMetrics) : EmotionSummary :=
  let emotions := m.emotion_trend.map (·.emotion)
  match firstKeys emotions with
  | [] =>
      { dominant_emotion := "neutral", emotion_changes := 0,
        emotion_distribution := [], emotional_stability := none }
  | k :: t =>
      let changes := adjacentChanges emotions
      { dominant_emotion := pickDominant (countOf emotions) t k,
        emotion_changes := changes,
        emotion_distribution := (k :: t).map (fun e => (e, countOf emotions e)),
        emotional_stability := some (if changes < 3 then "stable" else "variable") }

/-- The summary dict built by `end_session` (lines 542–553). -/
structure SessionSummary where
  session_id : String
  total_duration : ℚ
  speaking_time : ℚ
  speaking_ratio : ℚ
  total_chunks : ℕ
  final_transcript : String
  analysis_count : ℕ
  confidence_trend : List ℚ
  emotion_summary : EmotionSummary
  final_metrics : LiveMetrics
deriving DecidableEq, Repr

/-- What `end_session` hands back to its caller: the summary dict on success,
or — because the whole body is wrapped in `try/except Exception` (lines
565–570) — the dict `{'session_id': sid, 'error': msg}` when anything was
raised inside.  The `raised` constructor stands for an exception propagating
out of the function; `end_session` never produces it. -/
inductive EndOutcome where
  | ok (s : SessionSummary)
  | errDict (session_id : String) (error : String)
  | raised (msg : String)
deriving DecidableEq, Repr

/-- `RealTimeAnalyzer.end_session` (lines 530–570).  An unknown id raises
`ValueError(f"Session {sid} not found")`, which the function's own `except`
turns into the error dict `{'session_id': sid, 'error': 'Session end failed:
...'}` — nothing propagates to the caller.  On success the session record is
deleted and the engine buffer and transcript buffer are reset; `live_metrics`
is read (for the summary) but not mutated. -/
def end_session (st : EngineState) (sid : String) (now : ℚ) :
    EndOutcome × EngineState :=
  match lookupSession st.session_data sid with
  | none =>
      (.errDict sid ("Session end failed: Session " ++ sid ++ " not found"), st)
  | some session =>
      let total_duration := now - session.start_time
      let summary : SessionSummary :=
        { session_id := sid,
          total_duration := total_duration,
          speaking_time := st.live_metrics.speaking_time,
          speaking_ratio :=
            if 0 < total_duration then st.live_metrics.speaking_time / total_duration
            else 0,
          total_chunks := session.total_chunks,
          final_transcript := session.accumulated_transcript,
          analysis_count := session.analysis_results.length,
          confidence_trend := st.live_metrics.confidence_trend,
          emotion_summary := summarize_emotions st.live_metrics,
          final_metrics := st.live_metrics }
      (.ok summary,
       { st with
           session_data := removeSession st.session_data sid,
           buffer := [],
           transcript_buffer := "" })

end RealtimeAnalysis

namespace Main

/-! ## `ConnectionManager._make_json_safe` (`src/backend/main.py`, lines 78–89)

Python runtime values as seen by the sanitizer, as a (mutual) inductive tree:
the primitives it passes through (`bool`, `int`, `float`, `str`, `None`),
dicts and lists, objects exposing a `__dict__` of attributes, and any other
value, carried with its `str(...)` representation.  Event payloads are built
from string-keyed dicts, so dict keys are `String`. -/

mutual
inductive PyValue where
  | pnone
  | pbool (b : Bool)
  | pint (n : ℤ)
  | pfloat (q : ℚ)
  | pstr (s : String)
  | plist (items : PyList)
  | pdict (entries : PyDict)
  | pobj (reprStr : String) (attrs : PyDict)
  | pother (reprStr : String)

inductive PyList where
  | nil
  | cons (v : PyValue) (tail : PyList)

inductive PyDict where
  | nil
  | cons (k : String) (v : PyValue) (tail : PyDict)
end

mutual
/-- `ConnectionManager._make_json_safe`: dicts and lists are rebuilt with
sanitized values (dict keys untouched); `bool`/`int`/`float`/`str`/`None` pass
through; a value with a `__dict__` becomes the dict of its sanitized
attributes; everything else becomes `str(obj)`. -/
def makeJsonSafe : PyValue → PyValue
  | .pnone => .pnone
  | .pbool b => .pbool b
  | .pint n => .pint n
  | .pfloat q => .pfloat q
  | .pstr s => .pstr s
  | .plist items => .plist (makeJsonSafeList items)
  | .pdict entries => .pdict (makeJsonSafeDict entries)
  | .pobj _ attrs => .pdict (makeJsonSafeDict attrs)
  | .pother reprStr => .pstr reprStr

def makeJsonSafeList : PyList → PyList
  | .nil => .nil
  | .cons v t => .cons (makeJsonSafe v) (makeJsonSafeList t)

def makeJsonSafeDict : PyDict → PyDict
  | .nil => .nil
  | .cons k v t => .cons k (makeJsonSafe v) (makeJsonSafeDict t)
end

mutual
/-- A value is JSON-safe when it is built only from `None`, booleans, numbers,
strings, and nested dicts/lists of the same. -/
def jsonSafe : PyValue → Bool
  | .pnone => true
  | .pbool _ => true
  | .pint _ => true
  | .pfloat _ => true
  | .pstr _ => true
  | .plist items => jsonSafeList items
  | .pdict entries => jsonSafeDict entries
  | .pobj _ _ => false
  | .pother _ => false

def jsonSafeList : PyList → Bool
  | .nil => true
  | .cons v t => jsonSafe v && jsonSafeList t

def jsonSafeDict : PyDict → Bool
  | .nil => true
  | .cons _ v t => jsonSafe v && jsonSafeDict t
end

end Main

namespace RealtimeAnalysis

/-! ## Concrete fixtures used by the closed theorems below -/

/-- A fresh session record as installed by `start_session` for user `uid` at
time `t`. -/
def freshSession (uid : ℤ) (t : ℚ) : SessionData :=
  { user_id := uid, start_time := t, total_chunks := 0,
    total_audio_duration := 0, accumulated_transcript := "",
    analysis_results := [] }

/-- A buffer of 48001 silent samples (> 3 s) followed by 2 s of samples of
amplitude 1/7: the last-2-seconds energy is 1/49 > silence_threshold (so the
gate of `process_audio_chunk` fires), while the whole-buffer energy
32000/(49·80001) is below silence_threshold (so the snapshot validation of
`_process_buffer_chunk` fails). -/
def c1Buffer : List ℚ := List.replicate 48001 0 ++ List.replicate 32000 (1/7)

/-- Engine state reaching the failing validation of claim C1. -/
def c1State : EngineState :=
  { initState with
      buffer := c1Buffer,
      session_data := [("S1", freshSession 7 0)] }

/-- Oracles for the heavy pass (their values are irrelevant on the aborting
path). -/
def c1Oracles : PassOracles :=
  { fileWriteOk := true, transcript := none, ml := .raised "boom", nowIso := "t1" }

/-- Engine state for the C8 witness: 3 s of samples of amplitude 1/2 and one
registered session. -/
def w8State : EngineState :=
  { initState with
      buffer := List.replicate 48000 (1/2),
      session_data := [("S1", freshSession 7 0)] }

/-- Oracles for the C8 witness: the file write succeeds and the speech-to-text
collaborator returns no transcript. -/
def w8Oracles : PassOracles :=
  { fileWriteOk := true, transcript := none, ml := .raised "unused", nowIso := "t1" }

/-! ## Helper lemmas -/

theorem lastN_length (n : ℕ) (l : List α) :
    (lastN n l).length = l.length - (l.length - n) := by
  simp [lastN]

theorem lastN_length_of_le {n : ℕ} {l : List α} (h : n ≤ l.length) :
    (lastN n l).length = n := by
  simp only [lastN_length]
  omega

theorem lastN_of_length_le {n : ℕ} {l : List α} (h : l.length ≤ n) :
    lastN n l = l := by
  simp [lastN, Nat.sub_eq_zero_of_le h]

theorem lastN_length_le (n : ℕ) (l : List α) : (lastN n l).length ≤ n := by
  simp only [lastN_length]
  omega

theorem sumSq_nonneg (l : List ℚ) : 0 ≤ sumSq l := by
  induction l with
  | nil => simp [sumSq]
  | cons x t ih =>
      simp only [sumSq, List.map_cons, List.sum_cons]
      have := mul_self_nonneg x
      simp only [sumSq] at ih
      linarith

theorem sumSq_append (l₁ l₂ : List ℚ) : sumSq (l₁ ++ l₂) = sumSq l₁ + sumSq l₂ := by
  simp [sumSq]

theorem sumSq_replicate (n : ℕ) (x : ℚ) :
    sumSq (List.replicate n x) = n * (x * x) := by
  induction n with
  | zero => simp [sumSq]
  | succ k ih =>
      simp only [List.replicate_succ, sumSq, List.map_cons, List.sum_cons] at *
      rw [ih]
      push_cast
      ring

theorem meanSq_nonneg (l : List ℚ) : 0 ≤ meanSq l := by
  unfold meanSq
  split
  · exact le_refl 0
  · exact div_nonneg (sumSq_nonneg l) (by positivity)

theorem meanSq_replicate (n : ℕ) (x : ℚ) (h : n ≠ 0) :
    meanSq (List.replicate n x) = x * x := by
  have hn : (n : ℚ) ≠ 0 := by exact_mod_cast h
  simp [meanSq, sumSq_replicate, h, mul_comm, mul_div_assoc, div_self hn]

theorem int16OfBytes_bounds (lo hi : Fin 256) :
    -32768 ≤ int16OfBytes lo hi ∧ int16OfBytes lo hi ≤ 32767 := by
  have hlo := lo.isLt
  have hhi := hi.isLt
  simp only [int16OfBytes]
  split <;> omega

theorem pcm16Decode_mem_bounds :
    ∀ bs : List (Fin 256), ∀ x ∈ pcm16Decode bs, -1 ≤ x ∧ x ≤ 1
  | lo :: hi :: rest => by
      intro x hx
      simp only [pcm16Decode, List.mem_cons] at hx
      rcases hx with rfl | hx
      · obtain ⟨h₁, h₂⟩ := int16OfBytes_bounds lo hi
        constructor
        · rw [le_div_iff₀ (by norm_num : (0:ℚ) < 32768)]
          have : (-32768 : ℚ) ≤ (int16OfBytes lo hi : ℚ) := by exact_mod_cast h₁
          linarith
        · rw [div_le_one (by norm_num : (0:ℚ) < 32768)]
          have : ((int16OfBytes lo hi : ℤ) : ℚ) ≤ 32767 := by exact_mod_cast h₂
          linarith
      · exact pcm16Decode_mem_bounds rest x hx
  | [] => by intro x hx; simp [pcm16Decode] at hx
  | [_] => by intro x hx; simp [pcm16Decode] at hx

theorem maxAbs_le_one {l : List ℚ} (h : ∀ x ∈ l, -1 ≤ x ∧ x ≤ 1) :
    maxAbs l ≤ 1 := by
  induction l with
  | nil => simp [maxAbs]
  | cons x t ih =>
      simp only [maxAbs, List.foldr_cons]
      have hx := h x (List.mem_cons_self x t)
      have ht : maxAbs t ≤ 1 := ih (fun y hy => h y (List.mem_cons_of_mem x hy))
      simp only [maxAbs] at ht
      exact max_le (abs_le.mpr ⟨hx.1, hx.2⟩) ht

/-! ## Claim C4: the byte decoder -/

/-- **C4.** A chunk shorter than 4 bytes decodes to the empty sample sequence
(without raising — the embedded decoder is a total function); a chunk of even
length ≥ 4 decodes as signed 16-bit little-endian PCM, each sample divided by
32768, and every resulting sample lies in [-1, 1]. -/
theorem C4_decoder_bounds (bs : List (Fin 256)) :
    (bs.length < 4 → bytes_to_audio_array bs = []) ∧
    (4 ≤ bs.length → bs.length % 2 = 0 →
      bytes_to_audio_array bs = pcm16Decode bs ∧
      ∀ x ∈ bytes_to_audio_array bs, -1 ≤ x ∧ x ≤ 1) := by
  constructor
  · intro h
    simp [bytes_to_audio_array, h]
  · intro h4 heven
    have hbounds := pcm16Decode_mem_bounds bs
    have hmax : ¬ (10 < maxAbs (pcm16Decode bs)) := by
      have := maxAbs_le_one hbounds
      linarith
    have hne : (pcm16Decode bs).length ≠ 0 := by
      match bs, h4 with
      | b0 :: b1 :: rest, _ => simp [pcm16Decode]
    have harr : bytes_to_audio_array bs = pcm16Decode bs := by
      unfold bytes_to_audio_array
      rw [if_neg (show ¬ bs.length < 4 by omega), if_pos heven]
      simp only [if_neg hne, if_neg hmax]
    exact ⟨harr, by rw [harr]; exact hbounds⟩

/-- Witness for C4 at the concrete chunk `[0x00, 0x80, 0xFF, 0x7F]`
(the samples -32768/32768 = -1 and 32767/32768). -/
theorem C4_decoder_bounds_witness :
    4 ≤ ([(0 : Fin 256), 128, 255, 127] : List (Fin 256)).length ∧
    ([(0 : Fin 256), 128, 255, 127] : List (Fin 256)).length % 2 = 0 ∧
    bytes_to_audio_array [(0 : Fin 256), 128, 255, 127] =
      pcm16Decode [(0 : Fin 256), 128, 255, 127] :=
  ⟨by decide, by decide,
    ((C4_decoder_bounds [(0 : Fin 256), 128, 255, 127]).2 (by decide) (by decide)).1⟩

/-! ## Claim C5: the buffer retention policy -/

/-- **C5.** When the buffer exceeds `max_buffer_seconds * sample_rate = 480000`
samples, `_manage_buffer` retains exactly the most recent
`0.7 * 480000 = 336000` samples (a suffix of the buffer), so the length after a
trim is 336000 — never above the max nor below 70% of it; a buffer within the
max is left unchanged. -/
theorem C5_buffer_trim (buffer : List ℚ) :
    (480000 < buffer.length →
      manage_buffer buffer = lastN 336000 buffer ∧
      (manage_buffer buffer).length = 336000 ∧
      (manage_buffer buffer).length ≤ 480000) ∧
    (buffer.length ≤ 480000 → manage_buffer buffer = buffer) := by
  have hmax : ((max_buffer_size * (sample_rate : ℚ)).floor).toNat = 480000 := by
    norm_num [max_buffer_size, sample_rate]
    decide
  constructor
  · intro h
    have heq : manage_buffer buffer = lastN 336000 buffer := by
      unfold manage_buffer
      rw [hmax, if_pos h]
      have hkeep : (((480000 : ℕ) : ℚ) * (7/10)).floor.toNat = 336000 := by
        norm_num
        decide
      rw [hkeep]
    refine ⟨heq, ?_, ?_⟩
    · rw [heq]
      exact lastN_length_of_le (by omega)
    · rw [heq]
      have := lastN_length_le 336000 buffer
      omega
  · intro h
    unfold manage_buffer
    rw [hmax, if_neg (by omega)]

/-- Witness for C5: a 480001-sample buffer is trimmed to length 336000, and a
one-sample buffer is left unchanged. -/
theorem C5_buffer_trim_witness :
    480000 < (List.replicate 480001 (0:ℚ)).length ∧
    (manage_buffer (List.replicate 480001 (0:ℚ))).length = 336000 ∧
    ((1:ℚ) :: []).length ≤ 480000 ∧
    manage_buffer ((1:ℚ) :: []) = (1:ℚ) :: [] :=
  have hlen : 480000 < (List.replicate 480001 (0:ℚ)).length := by
    rw [List.length_replicate]
    omega
  ⟨hlen, ((C5_buffer_trim _).1 hlen).2.1, by simp,
    (C5_buffer_trim _).2 (by simp)⟩

/-! ## Claim C3: the heavy-analysis gate -/

theorem triggerCondition_iff (b : List ℚ) :
    triggerCondition b = true ↔
      (transcription_threshold < (b.length : ℚ) / sample_rate ∧
       silence_threshold < meanSq (lastN (sample_rate * 2) b)) := by
  simp only [triggerCondition]
  by_cases hd : transcription_threshold < (b.length : ℚ) / sample_rate
  · rw [if_pos hd]
    have h48 : 48000 < b.length := by
      rw [transcription_threshold, sample_rate] at hd
      rw [lt_div_iff₀ (by norm_num : (0:ℚ) < (16000:ℕ))] at hd
      exact_mod_cast hd
    have hrec : 0 < (lastN (sample_rate * 2) b).length := by
      rw [lastN_length_of_le (by rw [sample_rate]; omega)]
      rw [sample_rate]
      omega
    rw [if_pos hrec, decide_eq_true_eq]
    exact (and_iff_right hd).symm
  · rw [if_neg hd]
    simp only [Bool.false_eq_true, false_iff, not_and]
    intro hcon
    exact absurd hcon hd

/-- **C3.** For a processed chunk of a known session, `process_audio_chunk`
invokes the heavy-analysis pass (`_process_buffer_chunk`) exactly when, with
the decoded chunk appended to the engine buffer, the buffer duration strictly
exceeds `transcription_threshold` (3.0 s) and the mean of squared samples over
the most recent 2 seconds (`buffer[-sample_rate*2:]`) strictly exceeds
`silence_threshold` (0.01); `triggerCondition` is, definitionally, the
condition under which `process_audio_chunk` calls the pass. -/
theorem C3_heavy_pass_gate (st : EngineState) (audio_data : List (Fin 256)) :
    triggerCondition (st.buffer ++ bytes_to_audio_array audio_data) = true ↔
      (transcription_threshold <
          ((st.buffer ++ bytes_to_audio_array audio_data).length : ℚ) / sample_rate ∧
       silence_threshold <
          meanSq (lastN (sample_rate * 2) (st.buffer ++ bytes_to_audio_array audio_data))) :=
  triggerCondition_iff _

/-! ## Claim C7: monotone speaking time -/

/-- One live-metrics step, as folded over a sequence of chunks; each element
carries the chunk, the pitch-variation oracle and the timestamp. -/
def metricsStep (m : LiveMetrics) (c : List ℚ × ℚ × String) : LiveMetrics :=
  calculate_live_metrics m c.1 c.2.1 c.2.2

theorem speaking_time_step (m : LiveMetrics) (chunk : List ℚ) (pv : ℚ)
    (now : String) :
    (calculate_live_metrics m chunk pv now).speaking_time =
      m.speaking_time +
        (if isSpeaking chunk then (chunk.length : ℚ) / sample_rate else 0) := by
  unfold calculate_live_metrics
  by_cases h0 : chunk.length = 0
  · have : isSpeaking chunk = false := by
      have : chunk = [] := List.length_eq_zero.mp h0
      simp [isSpeaking, this, meanSq]
    simp [h0, this]
  · rw [if_neg h0]
    by_cases hs : isSpeaking chunk
    · simp [hs]
    · simp [hs]

theorem speaking_time_mono (m : LiveMetrics) (cs : List (List ℚ × ℚ × String)) :
    m.speaking_time ≤ (cs.foldl metricsStep m).speaking_time := by
  induction cs generalizing m with
  | nil => simp
  | cons c t ih =>
      refine le_trans ?_ (ih (metricsStep m c))
      rw [metricsStep, speaking_time_step]
      have hlen : (0:ℚ) ≤ (c.1.length : ℚ) / sample_rate := by positivity
      split <;> linarith

/-- **C7.** Within one session, `speaking_time` increases by the chunk duration
`len(chunk)/sample_rate` exactly when the chunk's un-scaled RMS volume
`sqrt(meanSq chunk)` exceeds the 0.01 speaking threshold (equivalently, when
`meanSq chunk > 1/10000` — the proved equivalence is the second conjunct); it
is non-decreasing across any sequence of processed chunks, and the only other
metrics mutator, `_update_analysis_trends`, never touches it. -/
theorem C7_speaking_time (m : LiveMetrics) (chunk : List ℚ) (pv : ℚ)
    (now : String) (cs : List (List ℚ × ℚ × String)) (a : Analysis) :
    ((calculate_live_metrics m chunk pv now).speaking_time =
      m.speaking_time +
        (if isSpeaking chunk then (chunk.length : ℚ) / sample_rate else 0)) ∧
    (isSpeaking chunk = true ↔
      ((1:ℝ)/100) < Real.sqrt ((meanSq chunk : ℚ) : ℝ)) ∧
    m.speaking_time ≤ (cs.foldl metricsStep m).speaking_time ∧
    (update_analysis_trends m a now).speaking_time = m.speaking_time := by
  refine ⟨speaking_time_step m chunk pv now, ?_, speaking_time_mono m cs, ?_⟩
  · rw [isSpeaking, decide_eq_true_eq,
      Real.lt_sqrt (by norm_num : (0:ℝ) ≤ (1:ℝ)/100)]
    constructor
    · intro h
      have : ((1:ℚ)/10000 : ℝ) < ((meanSq chunk : ℚ) : ℝ) := by exact_mod_cast h
      nlinarith [this]
    · intro h
      have h' : ((1:ℝ)/10000) < ((meanSq chunk : ℚ) : ℝ) := by nlinarith [h]
      have h'' : ((1:ℚ)/10000 : ℝ) < ((meanSq chunk : ℚ) : ℝ) := by
        convert h' using 2
        norm_num
      exact_mod_cast h''
  · simp [update_analysis_trends]

/-! ## Claim C6: bounded trend sequences -/

theorem trimTo10_lastN_append (xs : List α) (y : α) :
    trimTo10 (lastN 10 xs ++ [y]) = lastN 10 (xs ++ [y]) := by
  by_cases h : xs.length ≤ 9
  · rw [lastN_of_length_le (by omega : xs.length ≤ 10)]
    rw [trimTo10, if_neg (by simp; omega)]
    rw [lastN_of_length_le (by simp; omega)]
  · have h10 : 10 ≤ xs.length := by omega
    have hlen : (lastN 10 xs).length = 10 := lastN_length_of_le h10
    have key : ∀ l : List α, l.length = 10 → lastN 10 (l ++ [y]) = l.drop 1 ++ [y] := by
      intro l hl
      show (l ++ [y]).drop ((l ++ [y]).length - 10) = l.drop 1 ++ [y]
      rw [List.length_append, hl]
      simp only [List.length_cons, List.length_nil]
      rw [List.drop_append_of_le_length (by omega)]
    rw [trimTo10, if_pos (by simp [hlen]), key _ hlen]
    show (xs.drop (xs.length - 10)).drop 1 ++ [y] =
      (xs ++ [y]).drop ((xs ++ [y]).length - 10)
    rw [List.drop_drop, List.length_append]
    simp only [List.length_cons, List.length_nil]
    rw [List.drop_append_of_le_length (by omega)]
    congr 2
    omega

/-- The confidence score inserted for one analysis
(`analysis.get('confidence_score', 0)`). -/
def insertedScore (u : Analysis × String) : ℚ := u.1.confidence_score.getD 0

/-- The emotion entry inserted for one analysis, when its
`emotion_analysis` carries a `dominant_emotion`. -/
def insertedEmotion (u : Analysis × String) : Option EmotionEntry :=
  u.1.dominant_emotion.map (fun e => { emotion := e, timestamp := u.2 })

/-- One trend-update step, as folded over a sequence of analysis results. -/
def trendStep (m : LiveMetrics) (u : Analysis × String) : LiveMetrics :=
  update_analysis_trends m u.1 u.2

theorem trendStep_confidence (m : LiveMetrics) (u : Analysis × String)
    (xs : List ℚ) (h : m.confidence_trend = lastN 10 xs) :
    (trendStep m u).confidence_trend = lastN 10 (xs ++ [insertedScore u]) := by
  rw [trendStep, update_analysis_trends]
  simp only
  rw [h, trimTo10_lastN_append]
  rfl

theorem trendStep_emotion (m : LiveMetrics) (u : Analysis × String)
    (ys : List EmotionEntry) (h : m.emotion_trend = lastN 10 ys) :
    (trendStep m u).emotion_trend =
      lastN 10 (ys ++ (insertedEmotion u).toList) := by
  rw [trendStep, update_analysis_trends]
  simp only
  cases hu : u.1.dominant_emotion with
  | none => simp [insertedEmotion, hu, h]
  | some e =>
      simp only [hu]
      rw [h, trimTo10_lastN_append]
      simp [insertedEmotion, hu]

theorem trends_fold (us : List (Analysis × String)) :
    ∀ (m : LiveMetrics) (xs : List ℚ) (ys : List EmotionEntry),
      m.confidence_trend = lastN 10 xs →
      m.emotion_trend = lastN 10 ys →
      (us.foldl trendStep m).confidence_trend =
        lastN 10 (xs ++ us.map insertedScore) ∧
      (us.foldl trendStep m).emotion_trend =
        lastN 10 (ys ++ us.filterMap insertedEmotion) := by
  induction us with
  | nil => intro m xs ys hx hy; simp [hx, hy]
  | cons u t ih =>
      intro m xs ys hx hy
      have hx' := trendStep_confidence m u xs hx
      have hy' := trendStep_emotion m u ys hy
      obtain ⟨hc, he⟩ :=
        ih (trendStep m u) (xs ++ [insertedScore u])
          (ys ++ (insertedEmotion u).toList) hx' hy'
      constructor
      · rw [List.foldl_cons, hc, List.map_cons]
        congr 1
        simp
      · rw [List.foldl_cons, he, List.filterMap_cons]
        cases hu : insertedEmotion u with
        | none => simp [hu]
        | some v => simp [hu]

/-- **C6.** Folding `_update_analysis_trends` over any sequence of analysis
results, starting from the metrics installed by `start_session`, leaves
`confidence_trend` equal to the (at most) 10 most recent inserted confidence
scores in insertion order, `emotion_trend` equal to the (at most) 10 most
recent inserted emotion entries in insertion order, and both lengths never
exceed 10. -/
theorem C6_trend_bound (us : List (Analysis × String)) (nowIso : String) :
    ((us.foldl trendStep (resetMetrics nowIso)).confidence_trend =
        lastN 10 (us.map insertedScore)) ∧
    ((us.foldl trendStep (resetMetrics nowIso)).emotion_trend =
        lastN 10 (us.filterMap insertedEmotion)) ∧
    (us.foldl trendStep (resetMetrics nowIso)).confidence_trend.length ≤ 10 ∧
    (us.foldl trendStep (resetMetrics nowIso)).emotion_trend.length ≤ 10 := by
  have h0c : (resetMetrics nowIso).confidence_trend = lastN 10 ([] : List ℚ) := by
    simp [resetMetrics, initMetrics, lastN]
  have h0e : (resetMetrics nowIso).emotion_trend =
      lastN 10 ([] : List EmotionEntry) := by
    simp [resetMetrics, initMetrics, lastN]
  obtain ⟨hc, he⟩ := trends_fold us (resetMetrics nowIso) [] [] h0c h0e
  simp only [List.nil_append] at hc he
  refine ⟨hc, he, ?_, ?_⟩
  · rw [hc]; exact lastN_length_le _ _
  · rw [he]; exact lastN_length_le _ _

end RealtimeAnalysis

namespace Main

/-! ## Claim C9: the outbound-event sanitizer -/

mutual
theorem jsonSafe_makeJsonSafe : (v : PyValue) → jsonSafe (makeJsonSafe v) = true
  | .pnone => rfl
  | .pbool _ => rfl
  | .pint _ => rfl
  | .pfloat _ => rfl
  | .pstr _ => rfl
  | .plist items => by
      simpa [makeJsonSafe, jsonSafe] using jsonSafeList_makeJsonSafeList items
  | .pdict entries => by
      simpa [makeJsonSafe, jsonSafe] using jsonSafeDict_makeJsonSafeDict entries
  | .pobj _ attrs => by
      simpa [makeJsonSafe, jsonSafe] using jsonSafeDict_makeJsonSafeDict attrs
  | .pother _ => rfl

theorem jsonSafeList_makeJsonSafeList :
    (l : PyList) → jsonSafeList (makeJsonSafeList l) = true
  | .nil => rfl
  | .cons v t => by
      simp [makeJsonSafeList, jsonSafeList, jsonSafe_makeJsonSafe v,
        jsonSafeList_makeJsonSafeList t]

theorem jsonSafeDict_makeJsonSafeDict :
    (d : PyDict) → jsonSafeDict (makeJsonSafeDict d) = true
  | .nil => rfl
  | .cons k v t => by
      simp [makeJsonSafeDict, jsonSafeDict, jsonSafe_makeJsonSafe v,
        jsonSafeDict_makeJsonSafeDict t]
end

/-- **C9 counterexample.** The claim says every value other than `None`,
booleans, numbers, strings, dicts and lists "is converted to its string
representation"; but an object exposing a `__dict__` (here, with one attribute
`x = 1` and `str(obj) = "<Foo object>"`) is converted to the dict of its
attributes, not to its string representation. -/
theorem C9_counterexample :
    makeJsonSafe (.pobj "<Foo object>" (.cons "x" (.pint 1) .nil)) =
      PyValue.pdict (.cons "x" (.pint 1) .nil) ∧
    makeJsonSafe (.pobj "<Foo object>" (.cons "x" (.pint 1) .nil)) ≠
      PyValue.pstr "<Foo object>" := by
  constructor
  · rfl
  · intro h
    simp [makeJsonSafe, makeJsonSafeDict] at h

/-- **C9 (amended).** Every value passed through `_make_json_safe` comes out
composed only of `None`, booleans, numbers, strings and nested dicts/lists of
the same; a value of any other type is converted to the dict of its sanitized
attributes when it exposes an attribute dictionary (`__dict__`), and to its
string representation otherwise. -/
theorem C9_sanitizer (v : PyValue) (r : String) (attrs : PyDict) :
    jsonSafe (makeJsonSafe v) = true ∧
    makeJsonSafe (.pobj r attrs) = PyValue.pdict (makeJsonSafeDict attrs) ∧
    makeJsonSafe (.pother r) = PyValue.pstr r :=
  ⟨jsonSafe_makeJsonSafe v, rfl, rfl⟩

end Main

namespace RealtimeAnalysis

/-! ## Session-map lemmas -/

theorem lookup_insertSession_self (s : List (String × SessionData)) (sid : String)
    (d : SessionData) : lookupSession (insertSession s sid d) sid = some d := by
  unfold insertSession
  by_cases hs : (s.find? (fun p => p.1 == sid)).isSome
  · rw [if_pos hs]
    induction s with
    | nil => simp at hs
    | cons p t ih =>
        by_cases hp : p.1 == sid
        · simp [lookupSession, List.find?, hp]
        · rw [List.map_cons, if_neg (by simp_all)]
          rw [List.find?_cons_of_neg _ (by simp_all)] at hs
          have := ih hs
          unfold lookupSession at this ⊢
          rwa [List.find?_cons_of_neg _ (by simp_all)]
  · rw [if_neg hs]
    induction s with
    | nil => simp [lookupSession, List.find?]
    | cons p t ih =>
        by_cases hp : p.1 == sid
        · exact absurd (by simp [List.find?, hp]) hs
        · rw [List.find?_cons_of_neg _ (by simp_all)] at hs
          have := ih hs
          unfold lookupSession at this ⊢
          rw [List.cons_append, List.find?_cons_of_neg _ (by simp_all)]
          exact this

theorem lookup_removeSession_self (s : List (String × SessionData)) (sid : String) :
    lookupSession (removeSession s sid) sid = none := by
  unfold lookupSession removeSession
  induction s with
  | nil => simp
  | cons p t ih =>
      by_cases hp : p.1 == sid
      · rw [List.filter_cons_of_neg (by simp [hp])]
        exact ih
      · rw [List.filter_cons_of_pos (by simp [hp]),
          List.find?_cons_of_neg _ (by simp_all)]
        exact ih

/-! ## Claims C1 and C8: the heavy-analysis pass -/

theorem process_buffer_chunk_silent (st : EngineState) (sid : String)
    (or : PassOracles)
    (h1 : st.is_processing = false)
    (h2 : ¬ st.buffer.length = 0)
    (h3 : transcription_threshold ≤ (st.buffer.length : ℚ) / sample_rate)
    (h4 : meanSq st.buffer < silence_threshold) :
    process_buffer_chunk st sid or = (none, { st with is_processing := true }) := by
  unfold process_buffer_chunk
  simp only [h1, Bool.false_eq_true, if_false, if_neg h2,
    if_neg (not_lt.mpr h3), if_pos h4]

theorem process_buffer_chunk_no_transcript (st : EngineState) (sid : String)
    (or : PassOracles) (d : SessionData)
    (h1 : st.is_processing = false)
    (h2 : ¬ st.buffer.length = 0)
    (h3 : transcription_threshold ≤ (st.buffer.length : ℚ) / sample_rate)
    (h4 : silence_threshold ≤ meanSq st.buffer)
    (h5 : or.fileWriteOk = true)
    (h6 : lookupSession st.session_data sid = some d)
    (h7 : or.transcript = none) :
    process_buffer_chunk st sid or =
      (some
        { chunk_id := d.total_chunks,
          transcript := "",
          timestamp := or.nowIso,
          duration := (st.buffer.length : ℚ) / sample_rate,
          audio_energy := meanSq st.buffer,
          has_speech := decide (silence_threshold < meanSq st.buffer),
          analysis :=
            .listening "Continuing to listen..."
              (if silence_threshold < meanSq st.buffer then "detected" else "silent")
              0 },
       { st with
           is_processing := false,
           session_data := insertSession st.session_data sid
             { d with analysis_results := d.analysis_results ++
                [{ chunk_id := d.total_chunks,
                   transcript := "",
                   timestamp := or.nowIso,
                   duration := (st.buffer.length : ℚ) / sample_rate,
                   audio_energy := meanSq st.buffer,
                   has_speech := decide (silence_threshold < meanSq st.buffer),
                   analysis :=
                     .listening "Continuing to listen..."
                       (if silence_threshold < meanSq st.buffer then "detected"
                        else "silent") 0 }] },
           buffer := manage_buffer st.buffer }) := by
  unfold process_buffer_chunk
  simp only [h1, Bool.false_eq_true, if_false, if_neg h2,
    if_neg (not_lt.mpr h3), if_neg (not_lt.mpr h4), h5, Bool.not_true, h6,
    h7, transcriptTruthy, Option.getD_none, finishPass]

/-- **C1 (code bug).** A reachable heavy-analysis pass whose snapshot
validation fails (here: whole-buffer energy below `silence_threshold`, on a
buffer the public gate of `process_audio_chunk` does fire for, since its last
2 seconds are loud enough) returns no result without raising and leaves the
trends unchanged — but the in-progress flag `is_processing` is left `true`
(the early `return None` at lines 194–208 happens after `self.is_processing =
True` and outside the `try/finally` that resets it), so the gating state does
not return to IDLE and every later heavy pass is skipped at line 185. -/
theorem C1_flag_stuck :
    triggerCondition c1State.buffer = true ∧
    (process_buffer_chunk c1State "S1" c1Oracles).1 = none ∧
    (process_buffer_chunk c1State "S1" c1Oracles).2.is_processing = true ∧
    (process_buffer_chunk c1State "S1" c1Oracles).2.live_metrics =
      c1State.live_metrics ∧
    (process_buffer_chunk (process_buffer_chunk c1State "S1" c1Oracles).2 "S1"
        c1Oracles).1 = none := by
  have hlen : c1Buffer.length = 80001 := by
    rw [c1Buffer, List.length_append, List.length_replicate, List.length_replicate]
  have hsum : sumSq c1Buffer = 32000 * ((1:ℚ)/7 * ((1:ℚ)/7)) := by
    rw [c1Buffer, sumSq_append, sumSq_replicate, sumSq_replicate]
    norm_num
  have hmean : meanSq c1Buffer = 32000 / (49 * 80001) := by
    rw [meanSq, if_neg (by rw [hlen]; omega), hsum, hlen]
    norm_num
  have hlow : meanSq c1Buffer < silence_threshold := by
    rw [hmean, silence_threshold]
    norm_num
  have hbuf : c1State.buffer = c1Buffer := rfl
  have hdur : transcription_threshold ≤ (c1Buffer.length : ℚ) / sample_rate := by
    rw [hlen, transcription_threshold, sample_rate]
    norm_num
  have hrecent : lastN (sample_rate * 2) c1Buffer = List.replicate 32000 ((1:ℚ)/7) := by
    rw [c1Buffer, lastN, List.length_append, List.length_replicate,
      List.length_replicate, sample_rate]
    rw [show (48001 + 32000 - 16000 * 2 : ℕ) = 48001 from by norm_num]
    rw [List.drop_append_of_le_length (by rw [List.length_replicate])]
    rw [List.drop_eq_nil_of_le (by rw [List.length_replicate]), List.nil_append]
  have htrig : triggerCondition c1State.buffer = true := by
    rw [hbuf, triggerCondition_iff]
    refine ⟨by rw [hlen]; rw [transcription_threshold, sample_rate]; norm_num, ?_⟩
    rw [hrecent, meanSq_replicate _ _ (by norm_num), silence_threshold]
    norm_num
  have hproc : process_buffer_chunk c1State "S1" c1Oracles =
      (none, { c1State with is_processing := true }) :=
    process_buffer_chunk_silent c1State "S1" c1Oracles rfl
      (by rw [hbuf, hlen]; omega) (by rw [hbuf]; exact hdur) (by rw [hbuf]; exact hlow)
  refine ⟨htrig, by rw [hproc], by rw [hproc], by rw [hproc], ?_⟩
  rw [hproc]
  rfl

/-- **C8.** When the snapshot validations pass, the file write succeeds, and
the speech-to-text collaborator returns no transcript, the pass still returns
a `ChunkAnalysisResult` (so nothing fails: the embedded function is total and
produces `some`), with empty transcript, `has_speech` computed from the local
buffer energy, and the `'Continuing to listen...'` payload with
`confidence_score` 0; the result is appended to the session's analysis
history. -/
theorem C8_no_transcript (st : EngineState) (sid : String) (or : PassOracles)
    (d : SessionData)
    (h1 : st.is_processing = false)
    (h2 : ¬ st.buffer.length = 0)
    (h3 : transcription_threshold ≤ (st.buffer.length : ℚ) / sample_rate)
    (h4 : silence_threshold ≤ meanSq st.buffer)
    (h5 : or.fileWriteOk = true)
    (h6 : lookupSession st.session_data sid = some d)
    (h7 : or.transcript = none) :
    (process_buffer_chunk st sid or).1 =
      some
        { chunk_id := d.total_chunks,
          transcript := "",
          timestamp := or.nowIso,
          duration := (st.buffer.length : ℚ) / sample_rate,
          audio_energy := meanSq st.buffer,
          has_speech := decide (silence_threshold < meanSq st.buffer),
          analysis :=
            .listening "Continuing to listen..."
              (if silence_threshold < meanSq st.buffer then "detected" else "silent")
              0 } ∧
    lookupSession (process_buffer_chunk st sid or).2.session_data sid =
      some
        { d with analysis_results := d.analysis_results ++
            [{ chunk_id := d.total_chunks,
               transcript := "",
               timestamp := or.nowIso,
               duration := (st.buffer.length : ℚ) / sample_rate,
               audio_energy := meanSq st.buffer,
               has_speech := decide (silence_threshold < meanSq st.buffer),
               analysis :=
                 .listening "Continuing to listen..."
                   (if silence_threshold < meanSq st.buffer then "detected"
                    else "silent") 0 }] } ∧
    (process_buffer_chunk st sid or).2.is_processing = false := by
  have h := process_buffer_chunk_no_transcript st sid or d h1 h2 h3 h4 h5 h6 h7
  refine ⟨by rw [h], ?_, by rw [h]⟩
  rw [h]
  exact lookup_insertSession_self _ _ _

/-- Witness for C8: 3 seconds of samples of amplitude 1/2 (energy 1/4), a
registered session, a successful file write, and a `None` transcript. -/
theorem C8_no_transcript_witness :
    w8State.is_processing = false ∧
    ¬ w8State.buffer.length = 0 ∧
    transcription_threshold ≤ (w8State.buffer.length : ℚ) / sample_rate ∧
    silence_threshold ≤ meanSq w8State.buffer ∧
    w8Oracles.fileWriteOk = true ∧
    lookupSession w8State.session_data "S1" = some (freshSession 7 0) ∧
    w8Oracles.transcript = none ∧
    (process_buffer_chunk w8State "S1" w8Oracles).2.is_processing = false := by
  have hlen : w8State.buffer.length = 48000 := by
    show (List.replicate 48000 ((1:ℚ)/2)).length = 48000
    rw [List.length_replicate]
  have h2 : ¬ w8State.buffer.length = 0 := by rw [hlen]; omega
  have h3 : transcription_threshold ≤ (w8State.buffer.length : ℚ) / sample_rate := by
    rw [hlen, transcription_threshold, sample_rate]
    norm_num
  have h4 : silence_threshold ≤ meanSq w8State.buffer := by
    have : meanSq w8State.buffer = (1:ℚ)/2 * ((1:ℚ)/2) :=
      meanSq_replicate 48000 ((1:ℚ)/2) (by omega)
    rw [this, silence_threshold]
    norm_num
  exact ⟨rfl, h2, h3, h4, rfl, rfl, rfl,
    (C8_no_transcript w8State "S1" w8Oracles (freshSession 7 0) rfl h2 h3 h4
      rfl rfl rfl).2.2⟩

/-! ## Claim C2: `end_session` on unknown or already-ended sessions -/

/-- **C2 counterexample.** On an engine with no sessions, `end_session "S1"`
does not surface a hard failure: it returns the error dict
`{'session_id': 'S1', 'error': 'Session end failed: Session S1 not found'}`
(its own `except` catches the internal `ValueError`) and leaves the state
untouched, contradicting "fails with UnknownSessionError … surfaced to the
caller as a hard failure". -/
theorem C2_counterexample :
    (end_session initState "S1" 0).1 =
      EndOutcome.errDict "S1" "Session end failed: Session S1 not found" ∧
    (end_session initState "S1" 0).2 = initState := by
  constructor
  · rfl
  · rfl

/-- **C2 (amended).** Calling `end_session` with an id that was never started,
or a second time on the same id, returns (both times, without raising) the
error payload `{'session_id': sid, 'error': 'Session end failed: Session sid
not found'}` rather than a hard failure; a first successful call produces a
summary and removes that session's state. -/
theorem C2_end_session (st : EngineState) (sid : String) (now now' : ℚ)
    (d : SessionData) :
    (lookupSession st.session_data sid = none →
      end_session st sid now =
        (.errDict sid ("Session end failed: Session " ++ sid ++ " not found"), st)) ∧
    (lookupSession st.session_data sid = some d →
      (∃ s : SessionSummary, (end_session st sid now).1 = .ok s) ∧
      lookupSession (end_session st sid now).2.session_data sid = none ∧
      (end_session (end_session st sid now).2 sid now').1 =
        .errDict sid ("Session end failed: Session " ++ sid ++ " not found")) := by
  constructor
  · intro h
    unfold end_session
    rw [h]
  · intro h
    have hrm : lookupSession (end_session st sid now).2.session_data sid = none := by
      unfold end_session
      rw [h]
      exact lookup_removeSession_self _ _
    refine ⟨?_, hrm, ?_⟩
    · unfold end_session
      rw [h]
      exact ⟨_, rfl⟩
    · generalize hst : (end_session st sid now).2 = st' at hrm
      unfold end_session
      rw [hrm]

/-- Witness for C2: start a session, end it twice; the second call returns the
error payload. -/
theorem C2_end_session_witness :
    lookupSession (start_session initState "S1" 7 0 "t0").session_data "S1" =
      some (freshSession 7 0) ∧
    (end_session (end_session (start_session initState "S1" 7 0 "t0") "S1" 5).2
        "S1" 6).1 =
      EndOutcome.errDict "S1" "Session end failed: Session S1 not found" :=
  ⟨rfl,
    ((C2_end_session (start_session initState "S1" 7 0 "t0") "S1" 5 6
      (freshSession 7 0)).2 rfl).2.2⟩

/-! ## Claim C10: frame of `end_session` on the live metrics -/

/-- **C10.** A successful `end_session` deletes the session record and resets
the engine-wide audio buffer and transcript buffer, but leaves `live_metrics`
(hence `speaking_time`, `confidence_trend`, `emotion_trend`, `speaking_pace`)
untouched; those values persist until a subsequent `start_session`, which
resets the metrics. -/
theorem C10_end_session_frame (st : EngineState) (sid sid' : String) (now : ℚ)
    (uid : ℤ) (now' : ℚ) (nowIso' : String) (d : SessionData)
    (h : lookupSession st.session_data sid = some d) :
    ((end_session st sid now).2.live_metrics = st.live_metrics) ∧
    ((end_session st sid now).2.buffer = []) ∧
    ((end_session st sid now).2.transcript_buffer = "") ∧
    (lookupSession (end_session st sid now).2.session_data sid = none) ∧
    ((start_session (end_session st sid now).2 sid' uid now' nowIso').live_metrics =
      resetMetrics nowIso') := by
  unfold end_session
  rw [h]
  exact ⟨rfl, rfl, rfl, lookup_removeSession_self _ _, rfl⟩

/-- Witness for C10: ending a started session preserves the live metrics. -/
theorem C10_end_session_frame_witness :
    lookupSession (start_session initState "S1" 7 0 "t0").session_data "S1" =
      some (freshSession 7 0) ∧
    (end_session (start_session initState "S1" 7 0 "t0") "S1" 5).2.live_metrics =
      (start_session initState "S1" 7 0 "t0").live_metrics :=
  ⟨rfl,
    (C10_end_session_frame (start_session initState "S1" 7 0 "t0") "S1" "S2" 5 8 9
      "t2" (freshSession 7 0) rfl).1⟩

end RealtimeAnalysis
